import Mathlib

/-!
Verification of the realtime subscription client of the veroagents SDK
(`RealtimeResource`, src/realtime).  The TypeScript class is shallowly
embedded: the mutable fields of the class become a Lean structure
`RTState`, each method becomes a pure function returning the updated
state together with a list of observable `Effect`s (listener
notifications, socket operations, timer arming) so that ordering and
occurrence of side effects can be reasoned about.  Asynchronous
completions (token fetch, WebSocket construction, subscription
confirmations) are supplied as explicit `Except`/oracle arguments.

The pending-confirmation map with its per-command timeout timers is
modelled at a finer granularity in a second structure `PendingState`,
because two of the properties under study are about the interleaving of
`setTimeout` callbacks and inbound confirmation frames.
-/

deriving instance DecidableEq for Except

namespace VeroRealtime

/-- ConnectionState: `'disconnected' | 'connecting' | 'connected' | 'reconnecting'`. -/
inductive ConnectionState
  | disconnected
  | connecting
  | connected
  | reconnecting
deriving DecidableEq, Repr

/-- The `type` field of an outbound subscription command (`'subscribe' | 'unsubscribe'`). -/
inductive SubAction
  | subscribe
  | unsubscribe
deriving DecidableEq, Repr

/-- The `subscriptionType` field (`'all' | 'channel' | 'event_type'`). -/
inductive SubType
  | all
  | channel
  | event_type
deriving DecidableEq, Repr

/-- Outbound frame `SubscriptionCommand`: `{ type, subscriptionType, channels?, eventTypes? }`. -/
structure SubscriptionCommand where
  action : SubAction
  subscriptionType : SubType
  channels : Option (List String)
  eventTypes : Option (List String)
deriving DecidableEq, Repr

/-- JS `Set<string>` as an insertion-ordered duplicate-free list: `Set.add`. -/
def setAdd (s : List String) (x : String) : List String :=
  if x ∈ s then s else s ++ [x]

/-- JS `Set.delete`. -/
def setDelete (s : List String) (x : String) : List String :=
  s.filter (fun y => y ≠ x)

/-- Loop `for (const id of ids) set.add(id)`. -/
def addAll (s : List String) (xs : List String) : List String :=
  xs.foldl setAdd s

/-- Loop `for (const id of ids) set.delete(id)`. -/
def removeAll (s : List String) (xs : List String) : List String :=
  xs.foldl setDelete s

/-- The `activeSubscriptions` record of `RealtimeResource`
(`{ eventTypes: Set<string>; channels: Set<string>; subscribedToAll: boolean }`). -/
structure ActiveSubscriptions where
  eventTypes : List String
  channels : List String
  subscribedToAll : Bool
deriving DecidableEq, Repr

/-- Constant `MAX_RECONNECT_INTERVAL = 30000`. -/
def MAX_RECONNECT_INTERVAL : Nat := 30000

/-- Constant `DEFAULT_RECONNECT_INTERVAL = 1000`. -/
def DEFAULT_RECONNECT_INTERVAL : Nat := 1000

/-- Constant `DEFAULT_MAX_RECONNECT_ATTEMPTS = 10`. -/
def DEFAULT_MAX_RECONNECT_ATTEMPTS : Nat := 10

/-- Mutable state of one `RealtimeResource` instance.  `wsOpen` stands for
`this.ws !== null`, `reconnectTimerArmed` for `this.reconnectTimeout !== null`,
`heartbeatArmed` for `this.heartbeatInterval !== null`.  `autoReconnect`,
`reconnectInterval` and `maxReconnectAttempts` are the corresponding
`this.config` fields (`autoReconnect` is mutable: `disconnect()` sets it
to `false`). -/
structure RTState where
  autoReconnect : Bool
  reconnectInterval : Nat
  maxReconnectAttempts : Nat
  state : ConnectionState
  reconnectAttempts : Nat
  reconnectTimerArmed : Bool
  heartbeatArmed : Bool
  wsOpen : Bool
  activeSubscriptions : ActiveSubscriptions
deriving DecidableEq, Repr

/-- Observable side effects of a method run, in program order. -/
inductive Effect
  | stateChanged (s : ConnectionState)
  | errorEmitted (msg : String)
  | connectRejected (msg : String)
  | fetchToken
  | openSocket
  | closeSocket
  | commandSent (c : SubscriptionCommand)
  | armReconnectTimer (delayMs : Nat)
  | connectAttempt
  | pingSent
deriving DecidableEq, Repr

/-- Method `getState()`. -/
def getState (rt : RTState) : ConnectionState :=
  rt.state

/-- Method `setState(state)`: early-returns when the state is unchanged, otherwise
assigns and notifies every state handler (handler exceptions are caught and
logged, which the single `stateChanged` effect abstracts). -/
def setState (rt : RTState) (s : ConnectionState) : RTState × List Effect :=
  if rt.state = s then (rt, [])
  else ({ rt with state := s }, [Effect.stateChanged s])

/-- Method `emitError(error)`: notifies every error handler (exceptions caught). -/
def emitError (rt : RTState) (msg : String) : RTState × List Effect :=
  (rt, [Effect.errorEmitted msg])

/-- Method `stopHeartbeat()`. -/
def stopHeartbeat (rt : RTState) : RTState :=
  { rt with heartbeatArmed := false }

/-- Method `clearReconnectTimeout()`. -/
def clearReconnectTimeout (rt : RTState) : RTState :=
  { rt with reconnectTimerArmed := false }

/-- Method `disconnect()`: disables auto-reconnect, cancels the reconnect timer,
stops the heartbeat, closes the socket if present (`close(1000, 'Client
disconnect')`), transitions to `disconnected`. -/
def disconnect (rt : RTState) : RTState × List Effect :=
  let rt1 : RTState := { rt with autoReconnect := false }
  let rt2 := clearReconnectTimeout rt1
  let rt3 := stopHeartbeat rt2
  let closed : RTState × List Effect :=
    if rt3.wsOpen then ({ rt3 with wsOpen := false }, [Effect.closeSocket])
    else (rt3, [])
  let fin := setState closed.1 ConnectionState.disconnected
  (fin.1, closed.2 ++ fin.2)

/-- Method `shouldReconnect()`. -/
def shouldReconnect (rt : RTState) : Bool :=
  if rt.maxReconnectAttempts = 0 then true
  else rt.reconnectAttempts < rt.maxReconnectAttempts

/-- The exponential-backoff delay computed in `scheduleReconnect`:
`Math.min(reconnectInterval * 2 ** (reconnectAttempts - 1), MAX_RECONNECT_INTERVAL)`
where `attemptsPost` is the value of `this.reconnectAttempts` after the
`this.reconnectAttempts++` that precedes the computation. -/
def reconnectDelay (interval attemptsPost : Nat) : Nat :=
  min (interval * 2 ^ (attemptsPost - 1)) MAX_RECONNECT_INTERVAL

/-- Method `scheduleReconnect()`: no-op when a reconnect timer is already pending;
otherwise transitions to `reconnecting`, increments the attempt counter,
computes the backoff delay and arms the timer. -/
def scheduleReconnect (rt : RTState) : RTState × List Effect :=
  if rt.reconnectTimerArmed then (rt, [])
  else
    let p := setState rt ConnectionState.reconnecting
    let rt1 : RTState := { p.1 with reconnectAttempts := p.1.reconnectAttempts + 1 }
    let d := reconnectDelay rt1.reconnectInterval rt1.reconnectAttempts
    ({ rt1 with reconnectTimerArmed := true }, p.2 ++ [Effect.armReconnectTimer d])

/-- The `onclose` handler registered in `connect()`: stops the heartbeat,
nulls the socket; while still `connecting` it rejects the connect promise
and settles in `disconnected`; otherwise it transitions to `disconnected`
and, when `config.autoReconnect` holds and the attempt budget remains,
schedules a reconnect. -/
def oncloseHandler (rt : RTState) (reason : Option String) : RTState × List Effect :=
  let rt1 := stopHeartbeat rt
  let rt2 : RTState := { rt1 with wsOpen := false }
  if rt2.state = ConnectionState.connecting then
    let p := setState rt2 ConnectionState.disconnected
    (p.1, Effect.connectRejected ("Connection failed: " ++ reason.getD "Unknown reason") :: p.2)
  else
    let p := setState rt2 ConnectionState.disconnected
    if p.1.autoReconnect && shouldReconnect p.1 then
      let q := scheduleReconnect p.1
      (q.1, p.2 ++ q.2)
    else (p.1, p.2)

/-- The `onerror` handler registered in `connect()`: emits an error
notification; while `connecting` it additionally rejects the connect
promise.  It never transitions state by itself. -/
def onerrorHandler (rt : RTState) (m : Option String) : RTState × List Effect :=
  let msg := "WebSocket error" ++ (match m with | some s => ": " ++ s | none => "")
  if rt.state = ConnectionState.connecting then
    (rt, [Effect.errorEmitted msg, Effect.connectRejected msg])
  else
    (rt, [Effect.errorEmitted msg])

/-- Resolution of an awaited subscription command's promise, supplied as an
oracle: the server confirmed it, the server sent a `subscription_error`
frame carrying an optional message, or the 10-second timer fired first. -/
inductive SubOutcome
  | confirmed
  | errorFrame (msg : Option String)
  | timedOut
deriving DecidableEq, Repr

/-- Method `sendSubscription(command)`, coarse view: throws `'Not connected'` when no
socket is open or the state is not `connected`; otherwise the frame is sent
and the returned promise later settles according to the confirmation
traffic — `subscription_error` rejects with the server message (fallback
`'Subscription failed'`), the 10-second timeout rejects with
`'Subscription timeout'`.  The first component records whether the command
was actually sent; `awaitOutcome` is the settlement of the awaited promise. -/
def awaitOutcome (o : SubOutcome) : Except String Unit :=
  match o with
  | SubOutcome.confirmed => Except.ok ()
  | SubOutcome.errorFrame m => Except.error (m.getD "Subscription failed")
  | SubOutcome.timedOut => Except.error "Subscription timeout"

/-- The connected-check and send of `sendSubscription(command)`. -/
def sendSubscriptionCoarse (rt : RTState) (o : SubOutcome) :
    Bool × Except String Unit :=
  if rt.wsOpen = false ∨ rt.state ≠ ConnectionState.connected then
    (false, Except.error "Not connected")
  else
    (true, awaitOutcome o)

/-- An oracle assigning to each command the resolution of its confirmation. -/
def SubOracle : Type := SubscriptionCommand → SubOutcome

/-- Frame `{ type: 'subscribe', subscriptionType: 'all' }`. -/
def cmdSubscribeAll : SubscriptionCommand :=
  { action := SubAction.subscribe
    subscriptionType := SubType.all
    channels := none
    eventTypes := none }

/-- Frame `{ type: 'unsubscribe', subscriptionType: 'all' }`. -/
def cmdUnsubscribeAll : SubscriptionCommand :=
  { action := SubAction.unsubscribe
    subscriptionType := SubType.all
    channels := none
    eventTypes := none }

/-- Frame `{ type: 'subscribe', subscriptionType: 'channel', channels: ids }`. -/
def cmdSubscribeChannels (ids : List String) : SubscriptionCommand :=
  { action := SubAction.subscribe
    subscriptionType := SubType.channel
    channels := some ids
    eventTypes := none }

/-- Frame `{ type: 'unsubscribe', subscriptionType: 'channel', channels: ids }`. -/
def cmdUnsubscribeChannels (ids : List String) : SubscriptionCommand :=
  { action := SubAction.unsubscribe
    subscriptionType := SubType.channel
    channels := some ids
    eventTypes := none }

/-- Frame `{ type: 'subscribe', subscriptionType: 'event_type', eventTypes: ts }`. -/
def cmdSubscribeEventTypes (ts : List String) : SubscriptionCommand :=
  { action := SubAction.subscribe
    subscriptionType := SubType.event_type
    channels := none
    eventTypes := some ts }

/-- Frame `{ type: 'unsubscribe', subscriptionType: 'event_type', eventTypes: ts }`. -/
def cmdUnsubscribeEventTypes (ts : List String) : SubscriptionCommand :=
  { action := SubAction.unsubscribe
    subscriptionType := SubType.event_type
    channels := none
    eventTypes := some ts }

/-- Method `subscribeAll()`: sets `activeSubscriptions.subscribedToAll = true` and
then sends `{ type: 'subscribe', subscriptionType: 'all' }`. -/
def subscribeAllOp (rt : RTState) (o : SubOracle) :
    RTState × List SubscriptionCommand × Except String Unit :=
  let rt1 : RTState :=
    { rt with activeSubscriptions := { rt.activeSubscriptions with subscribedToAll := true } }
  let cmd := cmdSubscribeAll
  let p := sendSubscriptionCoarse rt1 (o cmd)
  (rt1, if p.1 then [cmd] else [], p.2)

/-- Method `unsubscribeAll()`: clears the flag, sends the `unsubscribe`/`all` frame. -/
def unsubscribeAllOp (rt : RTState) (o : SubOracle) :
    RTState × List SubscriptionCommand × Except String Unit :=
  let rt1 : RTState :=
    { rt with activeSubscriptions := { rt.activeSubscriptions with subscribedToAll := false } }
  let cmd := cmdUnsubscribeAll
  let p := sendSubscriptionCoarse rt1 (o cmd)
  (rt1, if p.1 then [cmd] else [], p.2)

/-- Method `subscribeChannels(channelIds)`: adds every id to the channel set, then
sends one batched `subscribe`/`channel` frame carrying the argument list. -/
def subscribeChannelsOp (rt : RTState) (ids : List String) (o : SubOracle) :
    RTState × List SubscriptionCommand × Except String Unit :=
  let rt1 : RTState :=
    { rt with activeSubscriptions :=
        { rt.activeSubscriptions with channels := addAll rt.activeSubscriptions.channels ids } }
  let cmd := cmdSubscribeChannels ids
  let p := sendSubscriptionCoarse rt1 (o cmd)
  (rt1, if p.1 then [cmd] else [], p.2)

/-- Method `unsubscribeChannels(channelIds)`. -/
def unsubscribeChannelsOp (rt : RTState) (ids : List String) (o : SubOracle) :
    RTState × List SubscriptionCommand × Except String Unit :=
  let rt1 : RTState :=
    { rt with activeSubscriptions :=
        { rt.activeSubscriptions with channels := removeAll rt.activeSubscriptions.channels ids } }
  let cmd := cmdUnsubscribeChannels ids
  let p := sendSubscriptionCoarse rt1 (o cmd)
  (rt1, if p.1 then [cmd] else [], p.2)

/-- Method `subscribeEventTypes(eventTypes)`. -/
def subscribeEventTypesOp (rt : RTState) (ts : List String) (o : SubOracle) :
    RTState × List SubscriptionCommand × Except String Unit :=
  let rt1 : RTState :=
    { rt with activeSubscriptions :=
        { rt.activeSubscriptions with eventTypes := addAll rt.activeSubscriptions.eventTypes ts } }
  let cmd := cmdSubscribeEventTypes ts
  let p := sendSubscriptionCoarse rt1 (o cmd)
  (rt1, if p.1 then [cmd] else [], p.2)

/-- Method `unsubscribeEventTypes(eventTypes)`. -/
def unsubscribeEventTypesOp (rt : RTState) (ts : List String) (o : SubOracle) :
    RTState × List SubscriptionCommand × Except String Unit :=
  let rt1 : RTState :=
    { rt with activeSubscriptions :=
        { rt.activeSubscriptions with eventTypes := removeAll rt.activeSubscriptions.eventTypes ts } }
  let cmd := cmdUnsubscribeEventTypes ts
  let p := sendSubscriptionCoarse rt1 (o cmd)
  (rt1, if p.1 then [cmd] else [], p.2)

/-- Method `resubscribe()` (invoked after a successful (re)connection): inside one
`try` block, sequentially `await`s `subscribeAll()` when the flag is set,
then `subscribeChannels(Array.from(channels))` when the channel set is
non-empty, then `subscribeEventTypes(Array.from(eventTypes))` when the
event-type set is non-empty; the single `catch` emits
`'Failed to resubscribe: ...'` as an error notification (the appended
JS `Error` stringification is abstracted to the underlying message).
Returns the updated state, the commands actually sent, and the effects. -/
def resubscribe (rt : RTState) (o : SubOracle) :
    RTState × List SubscriptionCommand × List Effect :=
  let s1 :=
    if rt.activeSubscriptions.subscribedToAll then subscribeAllOp rt o
    else (rt, [], Except.ok ())
  match s1.2.2 with
  | Except.error e =>
      (s1.1, s1.2.1, [Effect.errorEmitted ("Failed to resubscribe: " ++ e)])
  | Except.ok _ =>
    let s2 :=
      if s1.1.activeSubscriptions.channels.length > 0 then
        subscribeChannelsOp s1.1 s1.1.activeSubscriptions.channels o
      else (s1.1, [], Except.ok ())
    match s2.2.2 with
    | Except.error e =>
        (s2.1, s1.2.1 ++ s2.2.1, [Effect.errorEmitted ("Failed to resubscribe: " ++ e)])
    | Except.ok _ =>
      let s3 :=
        if s2.1.activeSubscriptions.eventTypes.length > 0 then
          subscribeEventTypesOp s2.1 s2.1.activeSubscriptions.eventTypes o
        else (s2.1, [], Except.ok ())
      match s3.2.2 with
      | Except.error e =>
          (s3.1, s1.2.1 ++ s2.2.1 ++ s3.2.1,
            [Effect.errorEmitted ("Failed to resubscribe: " ++ e)])
      | Except.ok _ =>
          (s3.1, s1.2.1 ++ s2.2.1 ++ s3.2.1, [])

/-- The three subscribe commands `resubscribe()` attempts, in order, when
nothing fails: derived from the registry exactly as the three `if`s do. -/
def resubscribeAllCommands (rt : RTState) : List SubscriptionCommand :=
  (if rt.activeSubscriptions.subscribedToAll then [cmdSubscribeAll] else []) ++
  (if rt.activeSubscriptions.channels.length > 0 then
    [cmdSubscribeChannels rt.activeSubscriptions.channels] else []) ++
  (if rt.activeSubscriptions.eventTypes.length > 0 then
    [cmdSubscribeEventTypes rt.activeSubscriptions.eventTypes] else [])

/-- Method `connect()` up to the registration of the socket handlers.  Early-returns
when already `connected` or `connecting`; otherwise transitions to
`connecting`, awaits the token fetcher (`tokenRes`), awaits the WebSocket
implementation lookup (`wsRes`), and constructs the socket.  Any exception
in that `try` block is caught: the state is set back to `disconnected` and
the connect promise rejects with the error.  Resolution of the promise on
success happens later, in the `onopen` handler. -/
def connectRun (rt : RTState) (tokenRes : Except String String)
    (wsRes : Except String Unit) : RTState × List Effect :=
  if rt.state = ConnectionState.connected ∨ rt.state = ConnectionState.connecting then
    (rt, [])
  else
    let p := setState rt ConnectionState.connecting
    match tokenRes with
    | Except.error e =>
        let q := setState p.1 ConnectionState.disconnected
        (q.1, p.2 ++ [Effect.fetchToken] ++ q.2 ++ [Effect.connectRejected e])
    | Except.ok _tok =>
      match wsRes with
      | Except.error e =>
          let q := setState p.1 ConnectionState.disconnected
          (q.1, p.2 ++ [Effect.fetchToken] ++ q.2 ++ [Effect.connectRejected e])
      | Except.ok _ =>
          ({ p.1 with wsOpen := true }, p.2 ++ [Effect.fetchToken, Effect.openSocket])

/-- Socket/timer events that can still reach the instance after
`disconnect()` (the verbs of the registered handlers and timers; a fresh
`connect()` call is deliberately not among them). -/
inductive RTEvent
  | socketClosed (reason : Option String)
  | socketErrored (msg : Option String)
  | reconnectTimerFired
  | heartbeatTick
deriving DecidableEq, Repr

/-- One event step.  The reconnect timer callback (`scheduleReconnect`'s
`setTimeout` body) nulls the handle and calls `connect()` (abstracted as the
`connectAttempt` effect); it can only run while the timer is armed.  The
heartbeat callback pings only while a socket is open and the state is
`connected`; it can only run while the interval is armed. -/
def step (rt : RTState) (e : RTEvent) : RTState × List Effect :=
  match e with
  | RTEvent.socketClosed r => oncloseHandler rt r
  | RTEvent.socketErrored m => onerrorHandler rt m
  | RTEvent.reconnectTimerFired =>
      if rt.reconnectTimerArmed then
        ({ rt with reconnectTimerArmed := false }, [Effect.connectAttempt])
      else (rt, [])
  | RTEvent.heartbeatTick =>
      if rt.heartbeatArmed && rt.wsOpen && decide (rt.state = ConnectionState.connected) then
        (rt, [Effect.pingSent])
      else (rt, [])

/-- Run a sequence of events, accumulating effects in order. -/
def runEvents (rt : RTState) (evs : List RTEvent) : RTState × List Effect :=
  match evs with
  | [] => (rt, [])
  | e :: rest =>
    let p := step rt e
    let q := runEvents p.1 rest
    (q.1, p.2 ++ q.2)

/-- What `disconnect()` establishes: auto-reconnect disabled, no pending
reconnect timer, state `disconnected`. -/
def disconnectedInv (rt : RTState) : Prop :=
  rt.autoReconnect = false ∧ rt.reconnectTimerArmed = false ∧
    rt.state = ConnectionState.disconnected

/-!
Fine-grained model of the pending-confirmation map together with the
`setTimeout` timers of `sendSubscription` and the confirmation branch of
`handleMessage`.  Callers of `sendSubscription` are identified by numbers,
as are timer handles; `settled` records each promise's final resolution
(a promise settles at most once: the first resolve/reject wins).
-/

/-- Timeout duration — the literal `10000` of `setTimeout(..., 10000)`. -/
def subscriptionTimeoutMs : Nat := 10000

/-- Key builder `getSubscriptionKey({action, subscriptionType})` =
`` `${action}:${subscriptionType}` ``. -/
def actionText (a : SubAction) : String :=
  match a with
  | SubAction.subscribe => "subscribe"
  | SubAction.unsubscribe => "unsubscribe"

/-- Rendering of `subscriptionType` in the key string. -/
def subTypeText (t : SubType) : String :=
  match t with
  | SubType.all => "all"
  | SubType.channel => "channel"
  | SubType.event_type => "event_type"

/-- The composite pending-map key. -/
def getSubscriptionKey (a : SubAction) (t : SubType) : String :=
  actionText a ++ ":" ++ subTypeText t

/-- The inbound `subscription_confirmed` / `subscription_error` frame. -/
structure SubscriptionConfirmation where
  isError : Bool
  action : SubAction
  subscriptionType : SubType
  items : List String
  errMsg : Option String
deriving DecidableEq, Repr

/-- A value of `pendingSubscriptions`: the waiting caller and the timer
handle its stored resolve/reject closures would `clearTimeout`. -/
structure PendingEntry where
  caller : Nat
  timer : Nat
deriving DecidableEq, Repr

/-- The tracker state: the `pendingSubscriptions` map (association list,
at most one entry per key), the armed `setTimeout` timers with the key and
caller their callback captured, and the settled promises. -/
structure PendingState where
  pending : List (String × PendingEntry)
  armed : List (Nat × String × Nat)
  settled : List (Nat × Except String SubscriptionConfirmation)
deriving DecidableEq, Repr

/-- Operation `Map.get`. -/
def mapLookup (m : List (String × PendingEntry)) (k : String) : Option PendingEntry :=
  match m with
  | [] => none
  | (k2, v) :: rest => if k2 = k then some v else mapLookup rest k

/-- Operation `Map.delete`. -/
def mapDelete (m : List (String × PendingEntry)) (k : String) :
    List (String × PendingEntry) :=
  m.filter (fun p => p.1 ≠ k)

/-- Operation `Map.set` — overwrites any existing entry under the key. -/
def mapSet (m : List (String × PendingEntry)) (k : String) (v : PendingEntry) :
    List (String × PendingEntry) :=
  (k, v) :: mapDelete m k

/-- A promise settles only once: later resolve/reject calls are ignored. -/
def settle (s : List (Nat × Except String SubscriptionConfirmation)) (c : Nat)
    (r : Except String SubscriptionConfirmation) :
    List (Nat × Except String SubscriptionConfirmation) :=
  if s.any (fun p => p.1 = c) then s else (c, r) :: s

/-- Resolution recorded for a caller, if its promise has settled. -/
def settledResult (s : List (Nat × Except String SubscriptionConfirmation))
    (c : Nat) : Option (Except String SubscriptionConfirmation) :=
  match s with
  | [] => none
  | (c2, r) :: rest => if c2 = c then some r else settledResult rest c

/-- Operation `clearTimeout`. -/
def disarmTimer (ts : List (Nat × String × Nat)) (tid : Nat) :
    List (Nat × String × Nat) :=
  ts.filter (fun q => q.1 ≠ tid)

/-- The pending-map part of `sendSubscription(command)` (after the connected
check): computes the key, arms a fresh `subscriptionTimeoutMs` timer whose
callback captured the key and the caller, and `Map.set`s the entry —
overwriting, without cancelling, anything already stored under the key. -/
def sendSub (ps : PendingState) (a : SubAction) (t : SubType)
    (caller tid : Nat) : PendingState :=
  let k := getSubscriptionKey a t
  { pending := mapSet ps.pending k { caller := caller, timer := tid },
    armed := (tid, k, caller) :: ps.armed,
    settled := ps.settled }

/-- The timeout callback of `sendSubscription`: if the timer is still armed
when it fires, it deletes whatever entry currently sits under its captured
key and rejects its own caller with `'Subscription timeout'`. -/
def fireTimer (ps : PendingState) (tid : Nat) : PendingState :=
  match ps.armed.find? (fun q => q.1 = tid) with
  | none => ps
  | some q =>
      { pending := mapDelete ps.pending q.2.1,
        armed := disarmTimer ps.armed tid,
        settled := settle ps.settled q.2.2 (Except.error "Subscription timeout") }

/-- The `subscription_confirmed` / `subscription_error` branch of
`handleMessage`: looks the key up; with no pending entry the frame is
dropped with no effect; otherwise the entry is deleted and its stored
closure runs — `clearTimeout` on the entry's timer, then reject with the
server message (fallback `'Subscription failed'`) for an error frame, or
resolve with the confirmation. -/
def handleConfirmationFrame (ps : PendingState) (conf : SubscriptionConfirmation) :
    PendingState :=
  let k := getSubscriptionKey conf.action conf.subscriptionType
  match mapLookup ps.pending k with
  | none => ps
  | some entry =>
      { pending := mapDelete ps.pending k,
        armed := disarmTimer ps.armed entry.timer,
        settled :=
          if conf.isError then
            settle ps.settled entry.caller
              (Except.error (conf.errMsg.getD "Subscription failed"))
          else
            settle ps.settled entry.caller (Except.ok conf) }

/-!  Concrete fixtures used to instantiate the properties. -/

/-- An idle instance with the default configuration
(`reconnectInterval` 1000, `maxReconnectAttempts` 10, `autoReconnect` true)
and an empty registry. -/
def baseState : RTState :=
  { autoReconnect := true, reconnectInterval := 1000, maxReconnectAttempts := 10,
    state := ConnectionState.disconnected, reconnectAttempts := 0,
    reconnectTimerArmed := false, heartbeatArmed := false, wsOpen := false,
    activeSubscriptions := { eventTypes := [], channels := [], subscribedToAll := false } }

/-- A connected instance holding the given registry. -/
def connectedState (regs : ActiveSubscriptions) : RTState :=
  { baseState with
    state := ConnectionState.connected
    heartbeatArmed := true
    wsOpen := true
    activeSubscriptions := regs }

/-- Registry `{all: false, channels: {"a","b"}, eventTypes: {"x"}}`. -/
def fidelityRegistry : ActiveSubscriptions :=
  { eventTypes := ["x"], channels := ["a", "b"], subscribedToAll := false }

/-- Registry `{all: true, channels: {"a"}, eventTypes: {}}`. -/
def isolationRegistry : ActiveSubscriptions :=
  { eventTypes := [], channels := ["a"], subscribedToAll := true }

/-- Oracle confirming every command. -/
def allConfirmedOracle : SubOracle := fun _ => SubOutcome.confirmed

/-- Oracle that has the server reject the `all` command and confirm the rest. -/
def rejectAllOracle : SubOracle := fun c =>
  if c.subscriptionType = SubType.all then SubOutcome.errorFrame (some "rejected")
  else SubOutcome.confirmed

/-- Tracker after caller 7 sends a `subscribe`/`channel` command with timer 3. -/
def timeoutPs : PendingState :=
  sendSub { pending := [], armed := [], settled := [] }
    SubAction.subscribe SubType.channel 7 3

/-- The key of a `subscribe`/`channel` command. -/
def subChannelKey : String := getSubscriptionKey SubAction.subscribe SubType.channel

/-- A `subscription_confirmed` frame for the `subscribe`/`channel` key. -/
def subChannelConf : SubscriptionConfirmation :=
  { isError := false, action := SubAction.subscribe,
    subscriptionType := SubType.channel, items := ["a"], errMsg := none }

/-- Tracker after caller 1 sends `subscribe`/`channel` with timer 101. -/
def overwritePs1 : PendingState :=
  sendSub { pending := [], armed := [], settled := [] }
    SubAction.subscribe SubType.channel 1 101

/-- Tracker after, in addition, caller 2 sends a command with the same key, timer 102. -/
def overwritePs2 : PendingState :=
  sendSub overwritePs1 SubAction.subscribe SubType.channel 2 102

/-- Tracker after, on top of that, caller 1's 10-second timer fires. -/
def overwritePs3 : PendingState := fireTimer overwritePs2 101

/-!  Theorems. -/

/-- C3: for every reconnect scheduling with configured base interval and the
post-increment attempt counter value N ≥ 1, the armed delay is exactly
`min(base * 2^(N-1), 30000)`; for base 1000 the delays for N = 1..10 are
1000, 2000, 4000, 8000, 16000, 30000, 30000, 30000, 30000, 30000. -/
theorem reconnect_backoff_formula (rt : RTState) (N : Nat)
    (h1 : rt.reconnectTimerArmed = false) (h2 : rt.reconnectAttempts + 1 = N) :
    Effect.armReconnectTimer (min (rt.reconnectInterval * 2 ^ (N - 1)) 30000)
        ∈ (scheduleReconnect rt).2 ∧
    List.map (fun i => reconnectDelay 1000 (i + 1)) (List.range 10) =
      [1000, 2000, 4000, 8000, 16000, 30000, 30000, 30000, 30000, 30000] := by
  constructor
  · subst h2
    by_cases hs : rt.state = ConnectionState.reconnecting <;>
      simp [scheduleReconnect, setState, h1, hs, reconnectDelay, MAX_RECONNECT_INTERVAL]
  · decide

/-- Witness for C3 at attempt N = 1 from the default configuration. -/
theorem reconnect_backoff_formula_witness :
    Effect.armReconnectTimer (min (baseState.reconnectInterval * 2 ^ (1 - 1)) 30000)
        ∈ (scheduleReconnect baseState).2 ∧
    List.map (fun i => reconnectDelay 1000 (i + 1)) (List.range 10) =
      [1000, 2000, 4000, 8000, 16000, 30000, 30000, 30000, 30000, 30000] :=
  reconnect_backoff_formula baseState 1 rfl rfl

/-- C10: `setState` is a complete no-op (no handler notification, no state
write) when the new state equals the current one; in particular a
`disconnect()` issued while already `disconnected` emits no state-change
notification. -/
theorem setState_no_same_state_notice (rt : RTState) (s : ConnectionState)
    (h : rt.state = s) :
    setState rt s = (rt, []) ∧
    (rt.state = ConnectionState.disconnected →
      ∀ eff ∈ (disconnect rt).2, ∀ s2, eff ≠ Effect.stateChanged s2) := by
  constructor
  · simp [setState, h]
  · intro hd eff hm s2
    by_cases hw : rt.wsOpen
    · simp [disconnect, clearReconnectTimeout, stopHeartbeat, setState, hd, hw] at hm
      simp [hm]
    · simp [disconnect, clearReconnectTimeout, stopHeartbeat, setState, hd, hw] at hm

/-- Witness for C10: an already-disconnected instance. -/
theorem setState_no_same_state_notice_witness :
    setState baseState ConnectionState.disconnected = (baseState, []) ∧
    ∀ eff ∈ (disconnect baseState).2, ∀ s2, eff ≠ Effect.stateChanged s2 :=
  ⟨(setState_no_same_state_notice baseState ConnectionState.disconnected rfl).1,
   (setState_no_same_state_notice baseState ConnectionState.disconnected rfl).2 rfl⟩

/-- C7: every subscribe/unsubscribe operation rewrites the subscription
registry as requested, independently of the confirmation oracle and of the
connection state; when the instance is not connected the send part fails
with `'Not connected'` and no command goes out, yet the registry is still
updated (the equations' right-hand sides mention neither the oracle nor the
connection fields). -/
theorem registry_is_desired_state (rt : RTState) (ids ts : List String) (o : SubOracle) :
    (subscribeChannelsOp rt ids o).1.activeSubscriptions.channels
        = addAll rt.activeSubscriptions.channels ids ∧
    (unsubscribeChannelsOp rt ids o).1.activeSubscriptions.channels
        = removeAll rt.activeSubscriptions.channels ids ∧
    (subscribeEventTypesOp rt ts o).1.activeSubscriptions.eventTypes
        = addAll rt.activeSubscriptions.eventTypes ts ∧
    (unsubscribeEventTypesOp rt ts o).1.activeSubscriptions.eventTypes
        = removeAll rt.activeSubscriptions.eventTypes ts ∧
    (subscribeAllOp rt o).1.activeSubscriptions.subscribedToAll = true ∧
    (unsubscribeAllOp rt o).1.activeSubscriptions.subscribedToAll = false ∧
    (rt.state ≠ ConnectionState.connected →
      (subscribeChannelsOp rt ids o).2.2 = Except.error "Not connected" ∧
      (subscribeChannelsOp rt ids o).2.1 = []) := by
  refine ⟨rfl, rfl, rfl, rfl, rfl, rfl, ?_⟩
  intro h
  constructor <;> simp [subscribeChannelsOp, sendSubscriptionCoarse, h]

/-- Witness for C7: a subscribe issued while disconnected still updates the
registry although the send fails. -/
theorem registry_is_desired_state_witness :
    (subscribeChannelsOp baseState ["a"] allConfirmedOracle).1.activeSubscriptions.channels
        = addAll baseState.activeSubscriptions.channels ["a"] ∧
    (subscribeChannelsOp baseState ["a"] allConfirmedOracle).2.2
        = Except.error "Not connected" ∧
    (subscribeChannelsOp baseState ["a"] allConfirmedOracle).2.1 = [] :=
  ⟨(registry_is_desired_state baseState ["a"] [] allConfirmedOracle).1,
   ((registry_is_desired_state baseState ["a"] [] allConfirmedOracle).2.2.2.2.2.2
      (by decide)).1,
   ((registry_is_desired_state baseState ["a"] [] allConfirmedOracle).2.2.2.2.2.2
      (by decide)).2⟩

/-- C8: a second command with the same `(action, subscriptionType)` key
overwrites the pending entry while the first command's 10-second timer stays
armed; that timer, on firing, deletes the entry now belonging to the second
caller and rejects the first caller with `'Subscription timeout'`; a
matching confirmation arriving afterwards is dropped without effect, and the
second caller is then failed by its own timer with `'Subscription timeout'`. -/
theorem stale_timer_overwrites_pending :
    (overwritePs2.armed.find? (fun q => q.1 = 101)).isSome = true ∧
    mapLookup overwritePs2.pending subChannelKey = some { caller := 2, timer := 102 } ∧
    mapLookup overwritePs3.pending subChannelKey = none ∧
    settledResult overwritePs3.settled 1 = some (Except.error "Subscription timeout") ∧
    settledResult overwritePs3.settled 2 = none ∧
    handleConfirmationFrame overwritePs3 subChannelConf = overwritePs3 ∧
    settledResult (fireTimer overwritePs3 102).settled 2
        = some (Except.error "Subscription timeout") := by
  decide

/-- C6: `connect()` while already `connected` or `connecting` returns at once
with no state change, no token fetch and no socket; hence a second
`connect()` issued while the first is still `connecting` contributes no
effects, and the two calls together open exactly one socket. -/
theorem connect_idempotent (rt rt0 : RTState)
    (tr : Except String String) (wr : Except String Unit) (t : String)
    (h : rt.state = ConnectionState.connected ∨ rt.state = ConnectionState.connecting)
    (h0 : rt0.state = ConnectionState.disconnected ∨
          rt0.state = ConnectionState.reconnecting) :
    connectRun rt tr wr = (rt, []) ∧
    ((connectRun rt0 (Except.ok t) (Except.ok ())).2 ++
      (connectRun (connectRun rt0 (Except.ok t) (Except.ok ())).1
        (Except.ok t) (Except.ok ())).2).count Effect.openSocket = 1 := by
  constructor
  · unfold connectRun
    rw [if_pos h]
  · rcases h0 with h0 | h0 <;>
      simp [connectRun, setState, h0, List.count_cons]

/-- Witness for C6: second call while the first is connecting. -/
theorem connect_idempotent_witness :
    connectRun { baseState with state := ConnectionState.connecting }
        (Except.ok "tok") (Except.ok ())
      = ({ baseState with state := ConnectionState.connecting }, []) ∧
    ((connectRun baseState (Except.ok "tok") (Except.ok ())).2 ++
      (connectRun (connectRun baseState (Except.ok "tok") (Except.ok ())).1
        (Except.ok "tok") (Except.ok ())).2).count Effect.openSocket = 1 :=
  connect_idempotent { baseState with state := ConnectionState.connecting }
    baseState (Except.ok "tok") (Except.ok ()) "tok" (Or.inr rfl) (Or.inl rfl)

/-- C9: when the token fetcher or the WebSocket-implementation lookup fails
during `connect()`, the promise rejects with that error and the state is set
back to `disconnected`; no socket is stored, the heartbeat and reconnect
timers are untouched (none started, none scheduled), and no socket is
opened. -/
theorem connect_failure_atomic (rt : RTState) (e : String)
    (tr : Except String String) (wr : Except String Unit)
    (hs : rt.state = ConnectionState.disconnected ∨
          rt.state = ConnectionState.reconnecting)
    (hw : rt.wsOpen = false)
    (hf : tr = Except.error e ∨ ((∃ t, tr = Except.ok t) ∧ wr = Except.error e)) :
    (connectRun rt tr wr).1.state = ConnectionState.disconnected ∧
    (connectRun rt tr wr).1.wsOpen = false ∧
    (connectRun rt tr wr).1.heartbeatArmed = rt.heartbeatArmed ∧
    (connectRun rt tr wr).1.reconnectTimerArmed = rt.reconnectTimerArmed ∧
    Effect.connectRejected e ∈ (connectRun rt tr wr).2 ∧
    Effect.openSocket ∉ (connectRun rt tr wr).2 ∧
    ∀ d, Effect.armReconnectTimer d ∉ (connectRun rt tr wr).2 := by
  rcases hf with hf | ⟨⟨t, ht⟩, hwr⟩
  · subst hf
    rcases hs with hs | hs <;>
      simp [connectRun, setState, hs, hw]
  · subst ht; subst hwr
    rcases hs with hs | hs <;>
      simp [connectRun, setState, hs, hw]

/-- Witness for C9: the token fetch rejects. -/
theorem connect_failure_atomic_witness :
    (connectRun baseState (Except.error "auth failed") (Except.ok ())).1.state
        = ConnectionState.disconnected ∧
    (connectRun baseState (Except.error "auth failed") (Except.ok ())).1.wsOpen = false ∧
    (connectRun baseState (Except.error "auth failed") (Except.ok ())).1.heartbeatArmed
        = baseState.heartbeatArmed ∧
    (connectRun baseState (Except.error "auth failed") (Except.ok ())).1.reconnectTimerArmed
        = baseState.reconnectTimerArmed ∧
    Effect.connectRejected "auth failed"
        ∈ (connectRun baseState (Except.error "auth failed") (Except.ok ())).2 ∧
    Effect.openSocket ∉ (connectRun baseState (Except.error "auth failed") (Except.ok ())).2 ∧
    ∀ d, Effect.armReconnectTimer d
        ∉ (connectRun baseState (Except.error "auth failed") (Except.ok ())).2 :=
  connect_failure_atomic baseState "auth failed" (Except.error "auth failed")
    (Except.ok ()) (Or.inl rfl) rfl (Or.inl rfl)

/-- Deleting a key from the pending map removes every binding of that key. -/
theorem mapLookup_mapDelete (m : List (String × PendingEntry)) (k : String) :
    mapLookup (mapDelete m k) k = none := by
  induction m with
  | nil => rfl
  | cons p rest ih =>
      obtain ⟨k2, v⟩ := p
      by_cases h : k2 = k
      · simpa [mapDelete, h] using ih
      · simpa [mapDelete, mapLookup, h] using ih

/-- A fresh settlement is recorded and observable. -/
theorem settledResult_settle_fresh
    (s : List (Nat × Except String SubscriptionConfirmation)) (c : Nat)
    (r : Except String SubscriptionConfirmation)
    (h : s.any (fun p => p.1 = c) = false) :
    settledResult (settle s c r) c = some r := by
  simp [settle, h, settledResult]

/-- C4: when a command's 10-second timer fires with its entry still in the
map, the waiting caller is rejected with `'Subscription timeout'` and the
entry is deleted; any confirmation frame for that key arriving afterwards
finds no pending entry and leaves the tracker completely unchanged. -/
theorem confirmation_timeout (ps : PendingState) (k : String) (c tid : Nat)
    (_hp : mapLookup ps.pending k = some { caller := c, timer := tid })
    (ht : ps.armed.find? (fun q => q.1 = tid) = some (tid, k, c))
    (hu : ps.settled.any (fun p => p.1 = c) = false) :
    subscriptionTimeoutMs = 10000 ∧
    mapLookup (fireTimer ps tid).pending k = none ∧
    settledResult (fireTimer ps tid).settled c
        = some (Except.error "Subscription timeout") ∧
    ∀ conf : SubscriptionConfirmation,
      getSubscriptionKey conf.action conf.subscriptionType = k →
        handleConfirmationFrame (fireTimer ps tid) conf = fireTimer ps tid := by
  have hfire : fireTimer ps tid =
      { pending := mapDelete ps.pending k,
        armed := disarmTimer ps.armed tid,
        settled := settle ps.settled c (Except.error "Subscription timeout") } := by
    simp [fireTimer, ht]
  refine ⟨rfl, ?_, ?_, ?_⟩
  · rw [hfire]
    exact mapLookup_mapDelete ps.pending k
  · rw [hfire]
    exact settledResult_settle_fresh ps.settled c _ hu
  · intro conf hk
    have hnone : mapLookup (fireTimer ps tid).pending
        (getSubscriptionKey conf.action conf.subscriptionType) = none := by
      rw [hk, hfire]
      exact mapLookup_mapDelete ps.pending k
    simp [handleConfirmationFrame, hnone]

/-- Witness for C4: caller 7's subscribe/channel command times out. -/
theorem confirmation_timeout_witness :
    subscriptionTimeoutMs = 10000 ∧
    mapLookup (fireTimer timeoutPs 3).pending subChannelKey = none ∧
    settledResult (fireTimer timeoutPs 3).settled 7
        = some (Except.error "Subscription timeout") ∧
    handleConfirmationFrame (fireTimer timeoutPs 3) subChannelConf
        = fireTimer timeoutPs 3 := by
  have h := confirmation_timeout timeoutPs subChannelKey 7 3
    (by decide) (by decide) (by decide)
  exact ⟨h.1, h.2.1, h.2.2.1, h.2.2.2 subChannelConf (by decide)⟩

/-- C1 counterexample: with registry `{all: false, channels: {"a","b"},
eventTypes: {"x"}}` and every command confirmed, the resubscribe run after a
successful (re)connection sends exactly two commands — a `channel` command
with `["a","b"]` and an `event_type` command with `["x"]` — not three. -/
theorem resubscribe_fidelity_counterexample :
    (resubscribe (connectedState fidelityRegistry) allConfirmedOracle).2.1 =
      [ { action := SubAction.subscribe, subscriptionType := SubType.channel,
          channels := some ["a", "b"], eventTypes := none },
        { action := SubAction.subscribe, subscriptionType := SubType.event_type,
          channels := none, eventTypes := some ["x"] } ] ∧
    ¬ (resubscribe (connectedState fidelityRegistry) allConfirmedOracle).2.1.length
        = 3 := by
  decide

/-- C1 amended: for a connected instance whose registry is
`{all: false, channels: {"a","b"}, eventTypes: {"x"}}`, the resubscribe run
(with all confirmations arriving) sends exactly two subscribe commands: one
`channel` command carrying `["a","b"]`, one `event_type` command carrying
`["x"]`, and no `all` command. -/
theorem resubscribe_fidelity (rt : RTState)
    (h1 : rt.state = ConnectionState.connected) (h2 : rt.wsOpen = true)
    (h3 : rt.activeSubscriptions = fidelityRegistry) :
    (resubscribe rt allConfirmedOracle).2.1 =
      [ { action := SubAction.subscribe, subscriptionType := SubType.channel,
          channels := some ["a", "b"], eventTypes := none },
        { action := SubAction.subscribe, subscriptionType := SubType.event_type,
          channels := none, eventTypes := some ["x"] } ] := by
  simp [resubscribe, subscribeAllOp, subscribeChannelsOp, subscribeEventTypesOp,
    sendSubscriptionCoarse, awaitOutcome, allConfirmedOracle, h1, h2, h3,
    fidelityRegistry, addAll, setAdd, cmdSubscribeChannels, cmdSubscribeEventTypes]

/-- Witness for C1 at the concrete connected instance. -/
theorem resubscribe_fidelity_witness :
    (resubscribe (connectedState fidelityRegistry) allConfirmedOracle).2.1 =
      [ { action := SubAction.subscribe, subscriptionType := SubType.channel,
          channels := some ["a", "b"], eventTypes := none },
        { action := SubAction.subscribe, subscriptionType := SubType.event_type,
          channels := none, eventTypes := some ["x"] } ] :=
  resubscribe_fidelity (connectedState fidelityRegistry) rfl rfl rfl

/-- After `disconnect()` the instance satisfies the disconnected invariant
and no further socket/timer event disturbs it or produces a reconnect
attempt or a newly armed reconnect timer. -/
theorem step_preserves_disconnected (rt : RTState) (e : RTEvent)
    (h : disconnectedInv rt) :
    disconnectedInv (step rt e).1 ∧
    ∀ eff ∈ (step rt e).2, eff ≠ Effect.connectAttempt ∧
      ∀ d, eff ≠ Effect.armReconnectTimer d := by
  obtain ⟨h1, h2, h3⟩ := h
  cases e with
  | socketClosed r =>
      constructor
      · simp [step, oncloseHandler, stopHeartbeat, setState, disconnectedInv, h1, h2, h3]
      · intro eff hm
        simp [step, oncloseHandler, stopHeartbeat, setState, h1, h2, h3] at hm
  | socketErrored m =>
      constructor
      · simp [step, onerrorHandler, disconnectedInv, h1, h2, h3]
      · intro eff hm
        simp [step, onerrorHandler, h3] at hm
        simp [hm]
  | reconnectTimerFired =>
      constructor
      · simp [step, disconnectedInv, h1, h2, h3]
      · intro eff hm
        simp [step, h2] at hm
  | heartbeatTick =>
      constructor
      · simp [step, disconnectedInv, h1, h2, h3]
      · intro eff hm
        simp [step, h3] at hm

/-- The disconnected invariant carries through any event sequence, with no
reconnect attempt and no reconnect timer armed along the way. -/
theorem runEvents_disconnected (evs : List RTEvent) (s : RTState)
    (h : disconnectedInv s) :
    disconnectedInv (runEvents s evs).1 ∧
    ∀ eff ∈ (runEvents s evs).2, eff ≠ Effect.connectAttempt ∧
      ∀ d, eff ≠ Effect.armReconnectTimer d := by
  induction evs generalizing s with
  | nil =>
      refine ⟨by simpa [runEvents] using h, ?_⟩
      intro eff hm
      simp [runEvents] at hm
  | cons e rest ih =>
      obtain ⟨hs, heff⟩ := step_preserves_disconnected s e h
      obtain ⟨hs2, heff2⟩ := ih (step s e).1 hs
      refine ⟨by simpa [runEvents] using hs2, ?_⟩
      intro eff hm
      simp only [runEvents, List.mem_append] at hm
      rcases hm with hm | hm
      · exact heff eff hm
      · exact heff2 eff hm

/-- Method `disconnect()` establishes the disconnected invariant. -/
theorem disconnect_establishes_inv (rt : RTState) :
    disconnectedInv (disconnect rt).1 := by
  by_cases hw : rt.wsOpen <;>
    by_cases hs : rt.state = ConnectionState.disconnected <;>
      simp [disconnect, clearReconnectTimeout, stopHeartbeat, setState,
        disconnectedInv, hw, hs]

/-- C5: after `disconnect()` returns, auto-reconnect is disabled and the
reconnect timer is cancelled; whatever socket/timer events then arrive —
including a stale close from the old socket — no reconnect attempt fires,
no reconnect timer is armed, and `getState()` stays `disconnected` (a fresh
`connect()` call is not among the events). -/
theorem disconnect_finality (rt : RTState) (evs : List RTEvent) :
    disconnectedInv (disconnect rt).1 ∧
    getState (runEvents (disconnect rt).1 evs).1 = ConnectionState.disconnected ∧
    ∀ eff ∈ (runEvents (disconnect rt).1 evs).2,
      eff ≠ Effect.connectAttempt ∧ ∀ d, eff ≠ Effect.armReconnectTimer d := by
  have h0 := disconnect_establishes_inv rt
  obtain ⟨hinv, heff⟩ := runEvents_disconnected evs (disconnect rt).1 h0
  exact ⟨h0, hinv.2.2, heff⟩

/-- C2 counterexample: with registry `{all: true, channels: {"a"}}` and the
server rejecting the `all` command, the resubscribe run sends only the `all`
command — the `channel` command is never sent (the single `try`/`catch`
wraps the whole sequence) — although the failure is reported via the error
channel and the connection state stays `connected`. -/
theorem resubscribe_failure_isolation_counterexample :
    (resubscribe (connectedState isolationRegistry) rejectAllOracle).2.1 =
      [ { action := SubAction.subscribe, subscriptionType := SubType.all,
          channels := none, eventTypes := none } ] ∧
    { action := SubAction.subscribe, subscriptionType := SubType.channel,
      channels := some ["a"], eventTypes := none }
        ∉ (resubscribe (connectedState isolationRegistry) rejectAllOracle).2.1 ∧
    (resubscribe (connectedState isolationRegistry) rejectAllOracle).2.2 =
      [Effect.errorEmitted "Failed to resubscribe: rejected"] ∧
    (resubscribe (connectedState isolationRegistry) rejectAllOracle).1.state =
      ConnectionState.connected := by
  decide

/-- C2 amended: during the resubscribe run after a successful (re)connection,
a failure of any subscribe command is reported only via the error channel
(the run's effects are empty or a single error notification) and neither
fails nor closes the connection (state, socket, auto-reconnect flag and
reconnect timer are untouched); however the failure aborts the remaining
subscribe commands — the commands actually sent are a prefix of the full
resubscribe sequence. -/
theorem resubscribe_failure_isolation (rt : RTState) (o : SubOracle) :
    (resubscribe rt o).1.state = rt.state ∧
    (resubscribe rt o).1.wsOpen = rt.wsOpen ∧
    (resubscribe rt o).1.autoReconnect = rt.autoReconnect ∧
    (resubscribe rt o).1.reconnectTimerArmed = rt.reconnectTimerArmed ∧
    ((resubscribe rt o).2.2 = [] ∨
      ∃ m, (resubscribe rt o).2.2 =
        [Effect.errorEmitted ("Failed to resubscribe: " ++ m)]) ∧
    (resubscribe rt o).2.1 <+: resubscribeAllCommands rt := by
  by_cases hbad : (rt.wsOpen = false ∨ rt.state ≠ ConnectionState.connected)
  · by_cases hA : rt.activeSubscriptions.subscribedToAll = true <;>
    by_cases hC : rt.activeSubscriptions.channels.length > 0 <;>
    by_cases hE : rt.activeSubscriptions.eventTypes.length > 0 <;>
    simp [resubscribe, subscribeAllOp, subscribeChannelsOp, subscribeEventTypesOp,
      sendSubscriptionCoarse, resubscribeAllCommands, hbad, hA, hC, hE,
      List.nil_prefix] <;>
    exact ⟨"Not connected", rfl⟩
  · by_cases hA : rt.activeSubscriptions.subscribedToAll = true <;>
    by_cases hC : rt.activeSubscriptions.channels.length > 0 <;>
    by_cases hE : rt.activeSubscriptions.eventTypes.length > 0 <;>
    rcases hr1 : awaitOutcome (o cmdSubscribeAll) with e1 | u1 <;>
    rcases hr2 : awaitOutcome (o (cmdSubscribeChannels rt.activeSubscriptions.channels))
      with e2 | u2 <;>
    rcases hr3 : awaitOutcome (o (cmdSubscribeEventTypes rt.activeSubscriptions.eventTypes))
      with e3 | u3 <;>
    simp [resubscribe, subscribeAllOp, subscribeChannelsOp, subscribeEventTypesOp,
      sendSubscriptionCoarse, resubscribeAllCommands, hbad, hA, hC, hE,
      hr1, hr2, hr3, List.nil_prefix]

end VeroRealtime
